import Mathlib

/-!
Shallow embedding of the AlphaFrontend client (a pharmacogenomics
decision-support UI): the wire data model and the four network operations
from `src/lib/api.ts`, the upload page's file-selection / submit logic,
and the results page's cache-load, regenerate and PDF-export logic from
the two page components.
-/

namespace AlphaFrontend

/-- Models a TypeScript field declared `name?: T | null`: the key can be
absent, present with `null`, or present with a value.  Key presence
(the JS `"name" in r` test) distinguishes `absent` from the other two. -/
inductive JsField (α : Type) where
  | absent
  | null
  | val (a : α)
deriving DecidableEq, Repr

/-- `RiskAssessment` from api.ts. -/
structure RiskAssessment where
  risk_label : String
  confidence_score : ℚ
  severity : String
  rationale : Option String
deriving DecidableEq, Repr

/-- `ClinicalRecommendation` from api.ts. -/
structure ClinicalRecommendation where
  action : String
  dose_adjustment : Option String
  monitoring : Option String
  alternative_drugs : Option (List String)
deriving DecidableEq, Repr

/-- `PharmacogenomicProfile` from api.ts. -/
structure PharmacogenomicProfile where
  gene : String
  diplotype : String
  phenotype : String
  detected_variants : List String
  activity_score : Option ℚ
  copy_number : Option ℚ
deriving DecidableEq, Repr

/-- `QualityMetrics` from api.ts. -/
structure QualityMetrics where
  annotation_completeness : String
  variants_analyzed : ℚ
  confidence_breakdown : Option (List (String × ℚ))
  interaction_warning : Option String
deriving DecidableEq, Repr

/-- `LLMExplanation` from api.ts. -/
structure LLMExplanation where
  summary : String
  mechanism : String
  citation : String
deriving DecidableEq, Repr

/-- `DrugAnalysisResult` from api.ts; `llm_explanation?: LLMExplanation | null`
is a `JsField` because the code tests its key presence. -/
structure DrugAnalysisResult where
  drug : String
  pharmacogenomic_profile : PharmacogenomicProfile
  risk_assessment : RiskAssessment
  clinical_recommendation : ClinicalRecommendation
  quality_metrics : QualityMetrics
  llm_explanation : JsField LLMExplanation
deriving DecidableEq, Repr

/-- `UnsupportedDrugResult` from api.ts. -/
structure UnsupportedDrugResult where
  drug : String
  risk_assessment : RiskAssessment
  clinical_recommendation : ClinicalRecommendation
deriving DecidableEq, Repr

/-- One element of `AnalysisResponse.results`:
`DrugAnalysisResult | UnsupportedDrugResult`. -/
inductive AnalysisResult where
  | supported (d : DrugAnalysisResult)
  | unsupported (u : UnsupportedDrugResult)
deriving DecidableEq, Repr

def AnalysisResult.drug : AnalysisResult → String
  | .supported d => d.drug
  | .unsupported u => u.drug

def AnalysisResult.risk_assessment : AnalysisResult → RiskAssessment
  | .supported d => d.risk_assessment
  | .unsupported u => u.risk_assessment

def AnalysisResult.clinical_recommendation : AnalysisResult → ClinicalRecommendation
  | .supported d => d.clinical_recommendation
  | .unsupported u => u.clinical_recommendation

/-- `isDrugResult` from api.ts: `"pharmacogenomic_profile" in r`. -/
def isDrugResult : AnalysisResult → Bool
  | .supported _ => true
  | .unsupported _ => false

/-- The JS test `"llm_explanation" in r`: true iff the key is present
(a `DrugAnalysisResult` whose optional field is not absent); per the
declared interfaces an `UnsupportedDrugResult` has no such key. -/
def AnalysisResult.hasLlmKey : AnalysisResult → Bool
  | .supported d => !(d.llm_explanation == JsField.absent)
  | .unsupported _ => false

/-- `AnalysisResponse` from api.ts. -/
structure AnalysisResponse where
  patient_id : String
  analysis_id : String
  timestamp : String
  results : List AnalysisResult
  vcf_hash : Option String
  audit_id : Option String
deriving DecidableEq, Repr

/-- JS `v || d` on a possibly-missing string value: `null`, `undefined`
and `""` are all falsy. -/
def jsOrString (v : Option String) (d : String) : String :=
  match v with
  | none => d
  | some s => if s = "" then d else s

/-- Does `pat` occur as a contiguous sublist of the second list? -/
def hasSubList (pat : List Char) : List Char → Bool
  | [] => pat.isEmpty
  | b :: bs => pat.isPrefixOf (b :: bs) || hasSubList pat bs

/-- JS `String.prototype.includes`. -/
def stringIncludes (s pat : String) : Bool :=
  hasSubList pat.data s.data

/-- An apostrophe character, for building the literal UI strings. -/
def apos : String := String.singleton (Char.ofNat 39)

/-- Upload page: `"File exceeds 5MB limit. Please provide a smaller VCF file."` -/
def sizeLimitMsg : String :=
  "File exceeds 5MB limit. Please provide a smaller VCF file."

/-- Upload page: the VCF parse-failure message. -/
def parseFailMsg : String :=
  "We couldn" ++ apos ++ "t parse this VCF file. Please ensure it" ++ apos
    ++ "s a valid VCF v4.2 format."

/-- Upload page: the contact-support message. -/
def supportFailMsg : String :=
  "Analysis failed. Please try again. If problem persists, contact support."

/-- Upload page: the network / backend-waking message. -/
def networkWakingMsg : String :=
  "Failed to connect to server. The backend may be waking up (Render free tier)—please wait 1–2 minutes and try again."

/-- The `catch` block of `handleAnalyze` (upload page, lines 103-109):
maps a raised error message to the displayed error string by ordered
substring tests. -/
def mapAnalyzeError (msg : String) : String :=
  if stringIncludes msg "5MB" then sizeLimitMsg
  else if stringIncludes msg "parse" || stringIncludes msg "VCF" then parseFailMsg
  else if stringIncludes msg "support" || stringIncludes msg "contact" then supportFailMsg
  else if stringIncludes msg "fetch" || stringIncludes msg "Failed" || stringIncludes msg "abort" then
    networkWakingMsg
  else msg

/-- `MAX_FILE_SIZE = 5 * 1024 * 1024` (upload page, line 23). -/
def MAX_FILE_SIZE : Nat := 5 * 1024 * 1024

/-- The selection-relevant data of a browser `File`. -/
structure FileInfo where
  name : String
  size : Nat
deriving DecidableEq, Repr

/-- Local state of the upload page (file, selected drugs, error, loading). -/
structure UploadState where
  file : Option FileInfo
  drugs : List String
  error : Option String
  loading : Bool
deriving DecidableEq, Repr

/-- The shared file-selection branch of `handleDrop` (lines 44-51) and
`handleFileChange` (lines 61-68).  The second component counts network
requests issued by the handler; the handlers contain no `fetch`, so it
is always `0`. -/
def selectFile (st : UploadState) (f : FileInfo) : UploadState × Nat :=
  if MAX_FILE_SIZE < f.size then ({ st with error := some sizeLimitMsg }, 0)
  else ({ st with error := none, file := some f }, 0)

/-- `isValid = file && drugs.length > 0 && !error` (line 115). -/
def isValid (st : UploadState) : Bool :=
  st.file.isSome && decide (0 < st.drugs.length) && st.error.isNone

/-- The Analyze button renders `disabled={!isValid || loading}` (line 214);
it is enabled exactly when not disabled. -/
def analyzeButtonEnabled (st : UploadState) : Bool :=
  isValid st && !st.loading

/-- The 120 000 ms budget passed to `setTimeout` before `controller.abort()`
(upload page, line 88). -/
def ANALYZE_TIMEOUT_MS : Nat := 120000

/-- Timing semantics of `handleAnalyze`'s fetch (lines 87-94): a timer armed
for `ANALYZE_TIMEOUT_MS` aborts the in-flight request; a response arriving
at `arrivalMs` clears the timer.  The request is aborted (the promise
rejects with the platform's abort error, of message `abortMsg`) iff it has
not completed when the timer fires. -/
def analyzeFetchOutcome (arrivalMs : Nat) (result : Except String AnalysisResponse)
    (abortMsg : String) : Except String AnalysisResponse :=
  if ANALYZE_TIMEOUT_MS < arrivalMs then Except.error abortMsg else result

/-- `API_URL` of api.ts (lines 2-3) and the inline `apiUrl` of
`handleAnalyze` (line 86): the env value, with JS `||` fallback to the
production backend. -/
def apiBase (env : Option String) : String :=
  jsOrString env "https://alpha-x-84p9.onrender.com"

/-- api.ts `analyzeVcf` target (also `handleAnalyze`, line 89). -/
def analyzeUrl (env : Option String) : String := apiBase env ++ "/analyze"

/-- api.ts `getSupportedDrugs` target. -/
def drugsUrl (env : Option String) : String := apiBase env ++ "/drugs"

/-- api.ts `getResults` target. -/
def resultsUrl (env : Option String) (analysisId : String) : String :=
  apiBase env ++ "/results/" ++ analysisId

/-- api.ts `regenerateExplanation` target. -/
def regenerateUrl (env : Option String) : String :=
  apiBase env ++ "/regenerate-explanation"

/-- The base of the audit-export link on the results page (line 478):
the env value with JS `||` fallback to `http://localhost:8000`. -/
def auditBase (env : Option String) : String :=
  jsOrString env "http://localhost:8000"

/-- The audit-export link `href` (results page, line 478). -/
def auditExportUrl (env : Option String) : String :=
  auditBase env ++ "/audit/export"

/-- A runtime JavaScript value as it can reach `setData` on the results
page: `JSON.parse` returns an untyped value, which the code stores
without validation.  `resp` is a record of `AnalysisResponse` shape;
`otherObj` any other object or array. -/
inductive JsValue where
  | null
  | bool (b : Bool)
  | num (q : ℚ)
  | str (s : String)
  | resp (r : AnalysisResponse)
  | otherObj
deriving DecidableEq, Repr

/-- JS falsiness of a `JsValue` (`!data` on the results page). -/
def jsFalsy : JsValue → Bool
  | .null => true
  | .bool b => !b
  | .num q => decide (q = 0)
  | .str s => decide (s = "")
  | .resp _ => false
  | .otherObj => false

/-- JS truthiness of a nullable string (`if (loadError)`). -/
def jsTruthyStr : Option String → Bool
  | none => false
  | some s => !(s == "")

/-- The session-cache key `pharmaguard-{id}` used by both pages. -/
def cacheKey (analysisId : String) : String := "pharmaguard-" ++ analysisId

/-- Observable outcome of the results page's mount effect: the value
passed to `setData` (initially `null` from `useState(null)`), the
`loadError` state, the number of `getResults` network calls issued,
and the session-cache writes performed (key, stored response). -/
structure LoadOutcome where
  data : JsValue
  loadError : Option String
  getResultsCalls : Nat
  cacheWrites : List (String × AnalysisResponse)
deriving DecidableEq, Repr

/-- The network branch of the mount effect (results page, lines 297-303):
one `getResults` call; on success store the response and write it to the
cache under `pharmaguard-{id}`; on failure set
`loadError = "Analysis not found"`. -/
def loadFetch (analysisId : String) (net : Except Unit AnalysisResponse) : LoadOutcome :=
  match net with
  | Except.ok r =>
      { data := JsValue.resp r, loadError := none, getResultsCalls := 1,
        cacheWrites := [(cacheKey analysisId, r)] }
  | Except.error _ =>
      { data := JsValue.null, loadError := some "Analysis not found",
        getResultsCalls := 1, cacheWrites := [] }

/-- The mount effect `load` (results page, lines 286-306).  `stored` is
the session-cache lookup: `none` when the key is absent, otherwise the
outcome of `JSON.parse` on the stored string (`Except.error` when parsing
throws).  A successfully parsed value is stored via `setData` as-is and
the effect returns; otherwise it falls through to the network. -/
def loadEffect (analysisId : String) (stored : Option (Except Unit JsValue))
    (net : Except Unit AnalysisResponse) : LoadOutcome :=
  match stored with
  | some (Except.ok v) =>
      { data := v, loadError := none, getResultsCalls := 0, cacheWrites := [] }
  | some (Except.error _) => loadFetch analysisId net
  | none => loadFetch analysisId net

/-- The three top-level render states of the results page. -/
inductive ResultView where
  | notFound
  | loadingSpinner
  | content
deriving DecidableEq, Repr

/-- The render dispatch of the results page (lines 398-417): the
`loadError` branch renders the terminal "Analysis not found" view, the
`!data` branch the spinner, otherwise the result content. -/
def renderResultView (o : LoadOutcome) : ResultView :=
  if jsTruthyStr o.loadError then ResultView.notFound
  else if jsFalsy o.data then ResultView.loadingSpinner
  else ResultView.content

/-- The spread `{ ...r, llm_explanation }` applied to a supported result
(under the guard, `r` always has the key so it is a `DrugAnalysisResult`). -/
def setLlmExplanation (e : LLMExplanation) : AnalysisResult → AnalysisResult
  | .supported d => .supported { d with llm_explanation := JsField.val e }
  | .unsupported u => .unsupported u

/-- The per-entry update of `handleRegenerate`'s `setData` (results page,
lines 317-321): `r.drug === drug && "llm_explanation" in r ?
{ ...r, llm_explanation } : r`. -/
def updateResultEntry (drug : String) (e : LLMExplanation) (r : AnalysisResult) :
    AnalysisResult :=
  if (r.drug == drug) && r.hasLlmKey then setLlmExplanation e r else r

/-- The successful-regeneration state update (results page, lines 313-323). -/
def regenerateSuccess (resp : AnalysisResponse) (drug : String) (e : LLMExplanation) :
    AnalysisResponse :=
  { resp with results := resp.results.map (updateResultEntry drug e) }

/-- A result entry with its `llm_explanation` field blanked, to state
"every field other than `llm_explanation` is unchanged". -/
def AnalysisResult.llmErased : AnalysisResult → AnalysisResult
  | .supported d => .supported { d with llm_explanation := JsField.absent }
  | .unsupported u => .unsupported u

/-- `new Set(Array.from(prev).concat(drug))` on a set represented as a
duplicate-free list in insertion order. -/
def addToSet (s : List String) (x : String) : List String :=
  if s.contains x then s else s ++ [x]

/-- Local state of the results page relevant to regeneration. -/
structure ResultsState where
  data : Option AnalysisResponse
  expandedLLM : List String
  regenerating : Option String
  loadError : Option String
deriving DecidableEq, Repr

/-- `handleRegenerate` (results page, lines 308-330) as a state
transformer, with the network outcome of `regenerateExplanation` as a
parameter.  On `!data` it returns immediately; otherwise it sets
`regenerating` to the drug, and on success updates `data` and
force-expands the drug's panel, on failure the `catch` ignores the
error; the `finally` resets `regenerating` to `null` either way. -/
def handleRegenerate (st : ResultsState) (drug : String)
    (outcome : Except Unit LLMExplanation) : ResultsState :=
  match st.data with
  | none => st
  | some d =>
    match outcome with
    | Except.ok e =>
        { st with data := some (regenerateSuccess d drug e),
                  expandedLLM := addToSet st.expandedLLM drug,
                  regenerating := none }
    | Except.error _ => { st with regenerating := none }

/-- JS `(q * 100).toFixed(0)` on a rational score: round to the nearest
integer, ties toward the larger integer (ECMA `toFixed`). -/
def toFixed0 (q : ℚ) : ℤ := Rat.floor (q + 1/2)

/-- The fixed disclaimer footer of the PDF export (results page,
lines 389-394). -/
def pdfDisclaimer : String :=
  "Disclaimer: This report is for clinical decision support only. Always consult a qualified healthcare provider."

/-- The per-result text block emitted by `downloadPdf` (results page,
lines 370-388): drug, risk label, confidence %, action; for a supported
result (the `isDrugResult(r) && r.pharmacogenomic_profile` branch) also
gene, diplotype and phenotype. -/
def pdfResultTexts (r : AnalysisResult) : List String :=
  ["Drug: " ++ r.drug,
   "Risk: " ++ r.risk_assessment.risk_label,
   "Confidence: " ++ toString (toFixed0 (r.risk_assessment.confidence_score * 100)) ++ "%",
   "Action: " ++ r.clinical_recommendation.action]
  ++ match r with
     | .supported d =>
        ["Gene: " ++ d.pharmacogenomic_profile.gene,
         "Diplotype: " ++ d.pharmacogenomic_profile.diplotype,
         "Phenotype: " ++ d.pharmacogenomic_profile.phenotype]
     | .unsupported _ => []

/-- The full sequence of strings passed to `doc.text` by `downloadPdf`
(results page, lines 358-396), in emission order. -/
def pdfTexts (resp : AnalysisResponse) : List String :=
  ["PharmaGuard Clinical Report",
   "Patient ID: " ++ resp.patient_id,
   "Analysis ID: " ++ resp.analysis_id,
   "Date: " ++ resp.timestamp,
   "VCF Hash: " ++ jsOrString resp.vcf_hash "N/A"]
  ++ (resp.results.map pdfResultTexts).flatten
  ++ [pdfDisclaimer]

/-! Concrete sample data used by witnesses and counterexamples. -/

def sampleRisk : RiskAssessment :=
  { risk_label := "Safe", confidence_score := 92/100, severity := "none",
    rationale := none }

def sampleRisk2 : RiskAssessment :=
  { risk_label := "Unknown", confidence_score := 1/2, severity := "low",
    rationale := some "no CPIC guideline" }

def sampleRec : ClinicalRecommendation :=
  { action := "Standard dosing", dose_adjustment := none, monitoring := none,
    alternative_drugs := none }

def sampleProfile : PharmacogenomicProfile :=
  { gene := "CYP2D6", diplotype := "*1/*1", phenotype := "Normal Metabolizer",
    detected_variants := ["rs3892097"], activity_score := none, copy_number := none }

def sampleQuality : QualityMetrics :=
  { annotation_completeness := "full", variants_analyzed := 42,
    confidence_breakdown := none, interaction_warning := none }

def sampleLLM : LLMExplanation :=
  { summary := "CYP2D6 normal metabolizer", mechanism := "O-demethylation",
    citation := "CPIC 2021" }

def sampleLLM2 : LLMExplanation :=
  { summary := "regenerated summary", mechanism := "regenerated mechanism",
    citation := "PharmGKB" }

def sampleSupported : DrugAnalysisResult :=
  { drug := "Codeine", pharmacogenomic_profile := sampleProfile,
    risk_assessment := sampleRisk, clinical_recommendation := sampleRec,
    quality_metrics := sampleQuality, llm_explanation := JsField.val sampleLLM }

def sampleUnsupported : UnsupportedDrugResult :=
  { drug := "Aspirin", risk_assessment := sampleRisk2,
    clinical_recommendation := sampleRec }

def sampleResponse : AnalysisResponse :=
  { patient_id := "P001", analysis_id := "a1",
    timestamp := "2026-01-01T00:00:00Z",
    results := [AnalysisResult.supported sampleSupported,
                AnalysisResult.unsupported sampleUnsupported],
    vcf_hash := some "abc123", audit_id := none }

/-- `sampleResponse` with a present-but-empty `vcf_hash`. -/
def emptyHashResponse : AnalysisResponse :=
  { sampleResponse with vcf_hash := some "" }

/-- An upload-page state that is in flight: valid file, one drug, no
error, `loading = true`.  Reachable: `handleAnalyze` sets `loading` to
`true` right after clearing the error. -/
def inFlightUploadState : UploadState :=
  { file := some { name := "patient.vcf", size := 100 },
    drugs := ["Codeine"], error := none, loading := true }

/-- A results-page state before a regenerate click: loaded data, no
panel expanded, nothing in flight, no load error. -/
def preRegenState : ResultsState :=
  { data := some sampleResponse, expandedLLM := [], regenerating := none,
    loadError := none }

/-! Helper lemmas shared between claims. -/

lemma mapAnalyzeError_network (msg : String)
    (h1 : stringIncludes msg "5MB" = false)
    (h2 : stringIncludes msg "parse" = false)
    (h3 : stringIncludes msg "VCF" = false)
    (h4 : stringIncludes msg "support" = false)
    (h5 : stringIncludes msg "contact" = false)
    (h6 : (stringIncludes msg "fetch" || stringIncludes msg "Failed"
            || stringIncludes msg "abort") = true) :
    mapAnalyzeError msg = networkWakingMsg := by
  simp [mapAnalyzeError, h1, h2, h3, h4, h5, h6]

/-! Theorems settling the claims. -/

/-- C4: a file larger than 5 242 880 bytes is rejected on selection (the
size-limit error is set, the file is not stored, no network request is
issued); a file of at most 5 242 880 bytes is stored and clears any
prior error. -/
theorem file_selection_size_gate (st : UploadState) (f : FileInfo) :
    (5242880 < f.size →
       (selectFile st f).1.error = some sizeLimitMsg
       ∧ (selectFile st f).1.file = st.file
       ∧ (selectFile st f).2 = 0)
    ∧ (f.size ≤ 5242880 →
       (selectFile st f).1.file = some f
       ∧ (selectFile st f).1.error = none
       ∧ (selectFile st f).2 = 0) := by
  have hmax : MAX_FILE_SIZE = 5242880 := by norm_num [MAX_FILE_SIZE]
  constructor
  · intro h
    have hM : MAX_FILE_SIZE < f.size := by rw [hmax]; exact h
    simp [selectFile, if_pos hM]
  · intro h
    have hM : ¬ MAX_FILE_SIZE < f.size := by rw [hmax]; exact Nat.not_lt.mpr h
    simp [selectFile, if_neg hM]

/-- Witness for `file_selection_size_gate`: a 6 000 000-byte file is
rejected without being stored; a 100-byte file replaces a prior error. -/
theorem file_selection_size_gate_witness :
    ((selectFile { file := none, drugs := ["Codeine"], error := none, loading := false }
        { name := "big.vcf", size := 6000000 }).1.error = some sizeLimitMsg
      ∧ (selectFile { file := none, drugs := ["Codeine"], error := none, loading := false }
        { name := "big.vcf", size := 6000000 }).1.file = none)
    ∧ ((selectFile { file := none, drugs := ["Codeine"], error := some sizeLimitMsg, loading := false }
        { name := "ok.vcf", size := 100 }).1.file = some { name := "ok.vcf", size := 100 }
      ∧ (selectFile { file := none, drugs := ["Codeine"], error := some sizeLimitMsg, loading := false }
        { name := "ok.vcf", size := 100 }).1.error = none) :=
  ⟨⟨((file_selection_size_gate _ _).1 (by norm_num)).1,
    ((file_selection_size_gate _ _).1 (by norm_num)).2.1⟩,
   ⟨((file_selection_size_gate _ _).2 (by norm_num)).1,
    ((file_selection_size_gate _ _).2 (by norm_num)).2.1⟩⟩

/-- C5 counterexample: in the reachable in-flight state (file present,
one drug selected, no error, `loading = true`) the Analyze control is
disabled, so "enabled iff file present, a drug selected and no error"
is false. -/
theorem analyze_enabled_iff_cex :
    inFlightUploadState.file.isSome = true
    ∧ 0 < inFlightUploadState.drugs.length
    ∧ inFlightUploadState.error = none
    ∧ analyzeButtonEnabled inFlightUploadState = false := by decide

/-- C5 amended: the Analyze control is enabled iff a file is present, at
least one drug is selected, no error is active, and no submission is in
flight (`loading = false`). -/
theorem analyze_enabled_iff (st : UploadState) :
    analyzeButtonEnabled st = true ↔
      (st.file.isSome = true ∧ st.drugs ≠ [] ∧ st.error = none ∧ st.loading = false) := by
  simp [analyzeButtonEnabled, isValid, Bool.and_eq_true, Option.isNone_iff_eq_none,
    List.length_pos, and_assoc]

/-- C3 counterexample: the message `"abort 5MB"` contains `"abort"` but
renders the size-limit message, not the network/backend-waking message. -/
theorem error_map_abort_cex :
    stringIncludes "abort 5MB" "abort" = true
    ∧ mapAnalyzeError "abort 5MB" = sizeLimitMsg
    ∧ ¬ mapAnalyzeError "abort 5MB" = networkWakingMsg := by decide

/-- C3 amended: the mapping tests the trigger substrings in priority
order — "5MB"; then "parse"/"VCF"; then "support"/"contact"; then
"fetch"/"Failed"/"abort"; a message matching no trigger renders
unchanged.  In particular "abort" (resp. "VCF") yields the network
(resp. parse-failure) message only when no earlier trigger matches. -/
theorem error_map_priority (msg : String) :
    (stringIncludes msg "5MB" = true → mapAnalyzeError msg = sizeLimitMsg)
    ∧ (stringIncludes msg "5MB" = false →
        (stringIncludes msg "parse" || stringIncludes msg "VCF") = true →
        mapAnalyzeError msg = parseFailMsg)
    ∧ (stringIncludes msg "5MB" = false → stringIncludes msg "parse" = false →
        stringIncludes msg "VCF" = false →
        (stringIncludes msg "support" || stringIncludes msg "contact") = true →
        mapAnalyzeError msg = supportFailMsg)
    ∧ (stringIncludes msg "5MB" = false → stringIncludes msg "parse" = false →
        stringIncludes msg "VCF" = false → stringIncludes msg "support" = false →
        stringIncludes msg "contact" = false →
        (stringIncludes msg "fetch" || stringIncludes msg "Failed"
          || stringIncludes msg "abort") = true →
        mapAnalyzeError msg = networkWakingMsg)
    ∧ (stringIncludes msg "5MB" = false → stringIncludes msg "parse" = false →
        stringIncludes msg "VCF" = false → stringIncludes msg "support" = false →
        stringIncludes msg "contact" = false → stringIncludes msg "fetch" = false →
        stringIncludes msg "Failed" = false → stringIncludes msg "abort" = false →
        mapAnalyzeError msg = msg) := by
  refine ⟨?_, ?_, ?_, ?_, ?_⟩
  · intro h1
    simp [mapAnalyzeError, h1]
  · intro h1 h2
    simp [mapAnalyzeError, h1, h2]
  · intro h1 h2 h3 h4
    simp [mapAnalyzeError, h1, h2, h3, h4]
  · intro h1 h2 h3 h4 h5 h6
    exact mapAnalyzeError_network msg h1 h2 h3 h4 h5 h6
  · intro h1 h2 h3 h4 h5 h6 h7 h8
    simp [mapAnalyzeError, h1, h2, h3, h4, h5, h6, h7, h8]

/-- Witness for `error_map_priority`: `"request abort"` matches only the
"abort" trigger and renders the network/backend-waking message. -/
theorem error_map_priority_witness :
    stringIncludes "request abort" "abort" = true
    ∧ mapAnalyzeError "request abort" = networkWakingMsg :=
  ⟨by decide,
   (error_map_priority "request abort").2.2.2.1 (by decide) (by decide) (by decide)
     (by decide) (by decide) (by decide)⟩

/-- C7: the analyze request carries a 120 000 ms client-side timeout: a
response arriving after the budget means the request was aborted and the
abort error (whose platform message contains "abort" and no
higher-priority trigger) renders the network/backend-waking message; a
response within the budget is returned unchanged. -/
theorem analyze_timeout_behavior (arrivalMs : Nat)
    (result : Except String AnalysisResponse) (abortMsg : String) :
    ANALYZE_TIMEOUT_MS = 120000
    ∧ (120000 < arrivalMs →
        analyzeFetchOutcome arrivalMs result abortMsg = Except.error abortMsg)
    ∧ (arrivalMs ≤ 120000 →
        analyzeFetchOutcome arrivalMs result abortMsg = result)
    ∧ (stringIncludes abortMsg "5MB" = false → stringIncludes abortMsg "parse" = false →
        stringIncludes abortMsg "VCF" = false → stringIncludes abortMsg "support" = false →
        stringIncludes abortMsg "contact" = false → stringIncludes abortMsg "abort" = true →
        mapAnalyzeError abortMsg = networkWakingMsg) := by
  refine ⟨rfl, ?_, ?_, ?_⟩
  · intro h
    have hM : ANALYZE_TIMEOUT_MS < arrivalMs := h
    simp [analyzeFetchOutcome, if_pos hM]
  · intro h
    have hM : ¬ ANALYZE_TIMEOUT_MS < arrivalMs := Nat.not_lt.mpr h
    simp [analyzeFetchOutcome, if_neg hM]
  · intro h1 h2 h3 h4 h5 h6
    exact mapAnalyzeError_network abortMsg h1 h2 h3 h4 h5 (by simp [h6])

/-- Witness for `analyze_timeout_behavior`: at 120 001 ms the request is
aborted and the browser abort message renders the backend-waking
message; at 119 999 ms a successful response is delivered unchanged. -/
theorem analyze_timeout_behavior_witness :
    analyzeFetchOutcome 120001 (Except.ok sampleResponse) "The operation was aborted."
      = Except.error "The operation was aborted."
    ∧ analyzeFetchOutcome 119999 (Except.ok sampleResponse) "The operation was aborted."
      = Except.ok sampleResponse
    ∧ mapAnalyzeError "The operation was aborted." = networkWakingMsg :=
  ⟨(analyze_timeout_behavior 120001 (Except.ok sampleResponse)
      "The operation was aborted.").2.1 (by norm_num),
   (analyze_timeout_behavior 119999 (Except.ok sampleResponse)
      "The operation was aborted.").2.2.1 (by norm_num),
   (analyze_timeout_behavior 120001 (Except.ok sampleResponse)
      "The operation was aborted.").2.2.2 (by decide) (by decide) (by decide)
     (by decide) (by decide) (by decide)⟩

/-- C8 (code bug): with the environment value absent, the four API
operations default to the fixed remote host, but the audit-export link
defaults to `http://localhost:8000` — its target is not the audit path
under the API base, contradicting the uniform-base-URL contract. -/
theorem audit_link_default_mismatch :
    apiBase none = "https://alpha-x-84p9.onrender.com"
    ∧ analyzeUrl none = "https://alpha-x-84p9.onrender.com/analyze"
    ∧ drugsUrl none = "https://alpha-x-84p9.onrender.com/drugs"
    ∧ resultsUrl none "a1" = "https://alpha-x-84p9.onrender.com/results/a1"
    ∧ regenerateUrl none = "https://alpha-x-84p9.onrender.com/regenerate-explanation"
    ∧ auditExportUrl none = "http://localhost:8000/audit/export"
    ∧ ¬ auditExportUrl none = apiBase none ++ "/audit/export" := by decide

/-- C1: the results page's mount protocol — a cache hit that parses is
used with zero network calls; a cache miss issues exactly one
`getResults` call and on success writes the response back under
`pharmaguard-{id}`; when the cache is absent or unparseable and the
network call fails, the view reaches the terminal "Analysis not found"
state. -/
theorem result_load_protocol (analysisId : String)
    (stored : Option (Except Unit JsValue)) (net : Except Unit AnalysisResponse) :
    (∀ v, stored = some (Except.ok v) →
       loadEffect analysisId stored net =
         { data := v, loadError := none, getResultsCalls := 0, cacheWrites := [] })
    ∧ (stored = none →
        (loadEffect analysisId stored net).getResultsCalls = 1
        ∧ ∀ r, net = Except.ok r →
            loadEffect analysisId stored net =
              { data := JsValue.resp r, loadError := none, getResultsCalls := 1,
                cacheWrites := [(cacheKey analysisId, r)] })
    ∧ ((stored = none ∨ stored = some (Except.error ())) → net = Except.error () →
        (loadEffect analysisId stored net).loadError = some "Analysis not found"
        ∧ renderResultView (loadEffect analysisId stored net) = ResultView.notFound) := by
  refine ⟨?_, ?_, ?_⟩
  · intro v hv
    subst hv
    rfl
  · intro hn
    subst hn
    refine ⟨?_, ?_⟩
    · cases net <;> rfl
    · intro r hr
      subst hr
      rfl
  · intro hs hn
    subst hn
    rcases hs with hs | hs <;> subst hs <;> exact ⟨rfl, rfl⟩

/-- Witness for `result_load_protocol`: a cached parsed response is used
with zero network calls; with no cache entry a failing fetch reaches the
"Analysis not found" view; a successful fetch is written back to the
cache. -/
theorem result_load_protocol_witness :
    loadEffect "a1" (some (Except.ok (JsValue.resp sampleResponse))) (Except.error ())
      = { data := JsValue.resp sampleResponse, loadError := none,
          getResultsCalls := 0, cacheWrites := [] }
    ∧ renderResultView (loadEffect "a1" none (Except.error ())) = ResultView.notFound
    ∧ loadEffect "a1" none (Except.ok sampleResponse)
      = { data := JsValue.resp sampleResponse, loadError := none,
          getResultsCalls := 1, cacheWrites := [(cacheKey "a1", sampleResponse)] } :=
  ⟨(result_load_protocol "a1" (some (Except.ok (JsValue.resp sampleResponse)))
      (Except.error ())).1 _ rfl,
   ((result_load_protocol "a1" none (Except.error ())).2.2 (Or.inl rfl) rfl).2,
   ((result_load_protocol "a1" none (Except.ok sampleResponse)).2.1 rfl).2 _ rfl⟩

/-- C10 counterexample: a cache entry parsing to the truthy non-record
JSON value `5` is accepted with zero network calls, but the view does
not remain on the loading spinner — `!data` is false, so it enters the
content-rendering branch. -/
theorem cached_truthy_nonrecord_cex :
    jsFalsy (JsValue.num 5) = false
    ∧ (loadEffect "a1" (some (Except.ok (JsValue.num 5))) (Except.error ())).getResultsCalls = 0
    ∧ (loadEffect "a1" (some (Except.ok (JsValue.num 5))) (Except.error ())).loadError = none
    ∧ renderResultView (loadEffect "a1" (some (Except.ok (JsValue.num 5))) (Except.error ()))
      = ResultView.content
    ∧ ¬ renderResultView (loadEffect "a1" (some (Except.ok (JsValue.num 5))) (Except.error ()))
      = ResultView.loadingSpinner := by decide

/-- C10 amended: a cache entry that parses as valid JSON is accepted
without validation — no network call, no load error (so never the
"Analysis not found" state), the parsed value stored as-is.  When the
parsed value is falsy (for example JSON `null`, from the cached string
`"null"`), the view remains on the loading spinner; when it is truthy —
including non-record values such as `5` or `true` — the view enters the
content-rendering branch instead. -/
theorem cached_falsy_json_spinner (analysisId : String) (v : JsValue)
    (net : Except Unit AnalysisResponse) :
    (loadEffect analysisId (some (Except.ok v)) net).getResultsCalls = 0
    ∧ (loadEffect analysisId (some (Except.ok v)) net).loadError = none
    ∧ (loadEffect analysisId (some (Except.ok v)) net).data = v
    ∧ (jsFalsy v = true →
        renderResultView (loadEffect analysisId (some (Except.ok v)) net)
          = ResultView.loadingSpinner
        ∧ renderResultView (loadEffect analysisId (some (Except.ok v)) net)
          ≠ ResultView.notFound)
    ∧ (jsFalsy v = false →
        renderResultView (loadEffect analysisId (some (Except.ok v)) net)
          = ResultView.content) := by
  refine ⟨rfl, rfl, rfl, ?_, ?_⟩
  · intro hf
    have : renderResultView (loadEffect analysisId (some (Except.ok v)) net)
        = ResultView.loadingSpinner := by
      simp [loadEffect, renderResultView, jsTruthyStr, hf]
    exact ⟨this, by rw [this]; exact fun h => ResultView.noConfusion h⟩
  · intro hf
    simp [loadEffect, renderResultView, jsTruthyStr, hf]

/-- Witness for `cached_falsy_json_spinner`: the cached string `"null"`
parses to JSON `null`; the view stays on the spinner with zero network
calls; a cached `true` value instead renders the content branch. -/
theorem cached_falsy_json_spinner_witness :
    (loadEffect "a1" (some (Except.ok JsValue.null)) (Except.error ())).getResultsCalls = 0
    ∧ renderResultView (loadEffect "a1" (some (Except.ok JsValue.null)) (Except.error ()))
      = ResultView.loadingSpinner
    ∧ renderResultView (loadEffect "a1" (some (Except.ok (JsValue.bool true))) (Except.error ()))
      = ResultView.content :=
  ⟨(cached_falsy_json_spinner "a1" JsValue.null (Except.error ())).1,
   ((cached_falsy_json_spinner "a1" JsValue.null (Except.error ())).2.2.2.1 rfl).1,
   (cached_falsy_json_spinner "a1" (JsValue.bool true) (Except.error ())).2.2.2.2 rfl⟩

lemma updateResultEntry_of_ne (drug : String) (e : LLMExplanation)
    (r : AnalysisResult) (h : r.drug ≠ drug) : updateResultEntry drug e r = r := by
  have hb : (r.drug == drug) = false := by simp [h]
  simp [updateResultEntry, hb]

lemma updateResultEntry_drug (drug : String) (e : LLMExplanation)
    (r : AnalysisResult) : (updateResultEntry drug e r).drug = r.drug := by
  cases r <;> simp only [updateResultEntry, setLlmExplanation] <;> split <;> rfl

lemma updateResultEntry_risk (drug : String) (e : LLMExplanation)
    (r : AnalysisResult) :
    (updateResultEntry drug e r).risk_assessment = r.risk_assessment := by
  cases r <;> simp only [updateResultEntry, setLlmExplanation] <;> split <;> rfl

lemma updateResultEntry_rec (drug : String) (e : LLMExplanation)
    (r : AnalysisResult) :
    (updateResultEntry drug e r).clinical_recommendation = r.clinical_recommendation := by
  cases r <;> simp only [updateResultEntry, setLlmExplanation] <;> split <;> rfl

lemma updateResultEntry_llmErased (drug : String) (e : LLMExplanation)
    (r : AnalysisResult) :
    (updateResultEntry drug e r).llmErased = r.llmErased := by
  cases r <;> simp only [updateResultEntry, setLlmExplanation] <;> split <;> rfl

/-- C2: a successful regeneration of drug `D` changes at most the
`llm_explanation` field of result entries whose `drug` equals `D`: every
non-`results` field of the response, the list length, and — entry by
entry — the drug, risk assessment, clinical recommendation and every
other field (witnessed by equality after blanking `llm_explanation`) are
unchanged, and entries whose drug differs from `D` are unchanged as whole
objects. -/
theorem regenerate_frame (resp : AnalysisResponse) (drug : String)
    (e : LLMExplanation) :
    (regenerateSuccess resp drug e).patient_id = resp.patient_id
    ∧ (regenerateSuccess resp drug e).analysis_id = resp.analysis_id
    ∧ (regenerateSuccess resp drug e).timestamp = resp.timestamp
    ∧ (regenerateSuccess resp drug e).vcf_hash = resp.vcf_hash
    ∧ (regenerateSuccess resp drug e).audit_id = resp.audit_id
    ∧ (regenerateSuccess resp drug e).results.length = resp.results.length
    ∧ ∀ i (hi : i < resp.results.length)
        (hi2 : i < (regenerateSuccess resp drug e).results.length),
        ((resp.results.get ⟨i, hi⟩).drug ≠ drug →
           (regenerateSuccess resp drug e).results.get ⟨i, hi2⟩
             = resp.results.get ⟨i, hi⟩)
        ∧ ((regenerateSuccess resp drug e).results.get ⟨i, hi2⟩).drug
            = (resp.results.get ⟨i, hi⟩).drug
        ∧ ((regenerateSuccess resp drug e).results.get ⟨i, hi2⟩).risk_assessment
            = (resp.results.get ⟨i, hi⟩).risk_assessment
        ∧ ((regenerateSuccess resp drug e).results.get ⟨i, hi2⟩).clinical_recommendation
            = (resp.results.get ⟨i, hi⟩).clinical_recommendation
        ∧ ((regenerateSuccess resp drug e).results.get ⟨i, hi2⟩).llmErased
            = (resp.results.get ⟨i, hi⟩).llmErased := by
  refine ⟨rfl, rfl, rfl, rfl, rfl, by simp [regenerateSuccess], ?_⟩
  intro i hi hi2
  have key : (regenerateSuccess resp drug e).results.get ⟨i, hi2⟩
      = updateResultEntry drug e (resp.results.get ⟨i, hi⟩) := by
    simp [regenerateSuccess, List.get_eq_getElem, List.getElem_map]
  rw [key]
  exact ⟨fun h => updateResultEntry_of_ne drug e _ h,
         updateResultEntry_drug drug e _,
         updateResultEntry_risk drug e _,
         updateResultEntry_rec drug e _,
         updateResultEntry_llmErased drug e _⟩

/-- Witness for `regenerate_frame`: regenerating "Codeine" on the sample
response leaves the unsupported "Aspirin" entry (index 1) unchanged and
preserves the patient id. -/
theorem regenerate_frame_witness :
    (regenerateSuccess sampleResponse "Codeine" sampleLLM2).patient_id
      = sampleResponse.patient_id
    ∧ (regenerateSuccess sampleResponse "Codeine" sampleLLM2).results.get
        ⟨1, by decide⟩ = sampleResponse.results.get ⟨1, by decide⟩ :=
  ⟨(regenerate_frame sampleResponse "Codeine" sampleLLM2).1,
   ((regenerate_frame sampleResponse "Codeine" sampleLLM2).2.2.2.2.2.2 1
      (by decide) (by decide)).1 (by decide)⟩

/-- C6: when the regenerate call fails, the `catch` swallows the error:
`data`, the expanded panels and `loadError` are untouched, and (the
in-flight marker having been reset by `finally`) the state equals the
pre-call state exactly; no error is surfaced. -/
theorem regenerate_failure_atomic (st : ResultsState) (drug : String) :
    (handleRegenerate st drug (Except.error ())).data = st.data
    ∧ (handleRegenerate st drug (Except.error ())).expandedLLM = st.expandedLLM
    ∧ (handleRegenerate st drug (Except.error ())).loadError = st.loadError
    ∧ (st.regenerating = none → handleRegenerate st drug (Except.error ()) = st) := by
  rcases st with ⟨data, ex, reg, le⟩
  cases data with
  | none => exact ⟨rfl, rfl, rfl, fun _ => rfl⟩
  | some d =>
      refine ⟨rfl, rfl, rfl, ?_⟩
      intro h
      simp only at h
      subst h
      rfl

/-- Witness for `regenerate_failure_atomic`: a failing regeneration of
"Codeine" leaves the concrete pre-call state exactly unchanged. -/
theorem regenerate_failure_atomic_witness :
    handleRegenerate preRegenState "Codeine" (Except.error ()) = preRegenState :=
  (regenerate_failure_atomic preRegenState "Codeine").2.2.2 rfl

/-- C9 counterexample: with a present-but-empty `vcf_hash` the PDF
prints `VCF Hash: N/A` (JS `||` treats `""` as absent), so the emitted
text does not include the hash line for the present hash. -/
theorem pdf_empty_hash_cex :
    emptyHashResponse.vcf_hash = some ""
    ∧ ("VCF Hash: " ++ "") ∉ pdfTexts emptyHashResponse
    ∧ ("VCF Hash: " ++ "N/A") ∈ pdfTexts emptyHashResponse := by decide

/-- C9 amended: the emitted PDF text contains, in relative order, the
patient id, the analysis id, the `vcf_hash` when present and non-empty
(`N/A` when absent, null or empty), then for each result in order its
drug, risk label, confidence percentage and recommended action — plus
gene, diplotype and phenotype for supported entries — then the
disclaimer. -/
theorem pdf_text_order (resp : AnalysisResponse) :
    List.Sublist
      (["Patient ID: " ++ resp.patient_id,
        "Analysis ID: " ++ resp.analysis_id,
        "VCF Hash: " ++ jsOrString resp.vcf_hash "N/A"]
       ++ (resp.results.map (fun r =>
            ["Drug: " ++ r.drug,
             "Risk: " ++ r.risk_assessment.risk_label,
             "Confidence: "
               ++ toString (toFixed0 (r.risk_assessment.confidence_score * 100)) ++ "%",
             "Action: " ++ r.clinical_recommendation.action]
            ++ match r with
               | .supported d =>
                  ["Gene: " ++ d.pharmacogenomic_profile.gene,
                   "Diplotype: " ++ d.pharmacogenomic_profile.diplotype,
                   "Phenotype: " ++ d.pharmacogenomic_profile.phenotype]
               | .unsupported _ => [])).flatten
       ++ [pdfDisclaimer])
      (pdfTexts resp) := by
  show List.Sublist
      (["Patient ID: " ++ resp.patient_id,
        "Analysis ID: " ++ resp.analysis_id,
        "VCF Hash: " ++ jsOrString resp.vcf_hash "N/A"]
       ++ (resp.results.map pdfResultTexts).flatten ++ [pdfDisclaimer])
      (pdfTexts resp)
  have h1 : List.Sublist
      ["Patient ID: " ++ resp.patient_id,
       "Analysis ID: " ++ resp.analysis_id,
       "VCF Hash: " ++ jsOrString resp.vcf_hash "N/A"]
      ["PharmaGuard Clinical Report",
       "Patient ID: " ++ resp.patient_id,
       "Analysis ID: " ++ resp.analysis_id,
       "Date: " ++ resp.timestamp,
       "VCF Hash: " ++ jsOrString resp.vcf_hash "N/A"] :=
    List.Sublist.cons _ (List.Sublist.cons₂ _ (List.Sublist.cons₂ _
      (List.Sublist.cons _ (List.Sublist.cons₂ _ List.Sublist.slnil))))
  exact List.Sublist.append
    (List.Sublist.append h1 (List.Sublist.refl _)) (List.Sublist.refl _)

end AlphaFrontend
